import Mathlib

/-!
# Pluto Intelligence backend — verification of the specified core

Shallow embedding of the core subsystems of the Pluto backend (Node.js):

* `sanitizeScrapedContent` — boilerplate scrubbing of scraped text
  (src/unnamed/part_004 lines 92–99, src/server.js lines 77–84);
* the concurrency gate `waitForTurn` / `activeScrapes--`
  (src/unnamed/part_004 lines 46–57);
* the content extractor `extractConversationData`
  (src/unnamed/part_004 lines 104–155);
* the multi-key / multi-model failover dispatcher `callLlamaSmart`
  (src/unnamed/part_004 lines 164–221);
* the exponential-backoff dispatcher `callLlamaWithRetry`
  (src/server.js lines 43–72);
* the Express route handlers `/api/debug`, `/api/initialize`, `/api/chat`
  (src/unnamed/part_004 lines 226–308).

External effects (fetch, the browser, timers, JSON.parse) are modelled as
oracle parameters; thrown JavaScript exceptions are modelled with `Except`.
-/

/-! ## JavaScript string primitives -/

/-- Does `hay` start with `needle`? -/
def isPrefixChars : List Char → List Char → Bool
  | [], _ => true
  | _ :: _, [] => false
  | a :: as, b :: bs => a = b && isPrefixChars as bs

/-- Does `needle` occur contiguously in `hay`? -/
def containsChars (needle : List Char) : List Char → Bool
  | [] => isPrefixChars needle []
  | c :: cs => isPrefixChars needle (c :: cs) || containsChars needle cs

/-- JS `String.prototype.includes(sub)`: `sub` occurs contiguously in `s`
(the empty string occurs in everything, as in JS). -/
def jsIncludes (s sub : String) : Bool :=
  containsChars sub.toList s.toList

/-- ASCII lowercasing (JS `toLowerCase` restricted to the ASCII range,
which is all these strings contain). -/
def asciiLower (s : String) : String :=
  ⟨s.toList.map Char.toLower⟩

/-- JS `String.prototype.indexOf(c)` for a single character: index of the
first occurrence, `-1` if absent. -/
def jsCharFirstIdx (s : String) (c : Char) : Int :=
  match s.toList.findIdx? (fun x => x = c) with
  | some i => (i : Int)
  | none => -1

/-- JS `String.prototype.lastIndexOf(c)` for a single character: index of the
last occurrence, `-1` if absent. -/
def jsCharLastIdx (s : String) (c : Char) : Int :=
  match s.toList.reverse.findIdx? (fun x => x = c) with
  | some i => ((s.toList.length - 1 - i : Nat) : Int)
  | none => -1

/-- JS `String.prototype.substring(a, b)`: both arguments are clamped into
`[0, length]` and swapped if out of order. -/
def jsSubstring (s : String) (a b : Int) : String :=
  let n := s.toList.length
  let clamp : Int → Nat := fun x => (max 0 (min x (n : Int))).toNat
  let lo := min (clamp a) (clamp b)
  let hi := max (clamp a) (clamp b)
  ⟨(s.toList.drop lo).take (hi - lo)⟩

/-! ## sanitizeScrapedContent (src/unnamed/part_004 lines 92–99)

The JS pipeline is
`text.replace(/<phrases>/gi, "").replace(/[^\x20-\x7E\n]/g, " ").trim().substring(0, 18000)`
guarded by `if (!text) return "";`.
-/

/-- The alternation of the boilerplate-removal regex, in pattern order
(src/unnamed/part_004 line 95). -/
def BOILERPLATE : List String :=
  ["Terms of Service", "Privacy Policy", "Cookie Preferences", "Report conversation",
   "By messaging ChatGPT", "Check important info", "Sign in", "Explore our other",
   "Try Gemini", "Try ChatGPT", "Verify you are human"]

/-- Case-insensitive prefix match: if `cs` starts with `phrase` (comparing
ASCII letters case-insensitively, as the `/i` flag does on ASCII patterns),
return the remainder of `cs` after the match. -/
def matchPhraseAt : List Char → List Char → Option (List Char)
  | [], rest => some rest
  | _ :: _, [] => none
  | p :: ps, c :: cs => if p.toLower = c.toLower then matchPhraseAt ps cs else none

/-- First phrase (in pattern order, as regex alternation tries alternatives
left to right) matching at the head of `cs`; returns the remainder. -/
def matchAnyPhrase (phrases : List String) (cs : List Char) : Option (List Char) :=
  match phrases with
  | [] => none
  | p :: ps =>
    match matchPhraseAt p.toList cs with
    | some rest => some rest
    | none => matchAnyPhrase ps cs

/-- One global-replace scan deleting matches: at each position, if some
boilerplate phrase matches, drop it and resume after the match (regex `g`
flag semantics); otherwise keep the character.  Fuel is the input length;
every step consumes at least one character (all phrases are nonempty), so
the fuel never runs out before the input does. -/
def removeBoilerplateAux (phrases : List String) : Nat → List Char → List Char
  | _, [] => []
  | 0, cs => cs
  | n + 1, c :: cs =>
    match matchAnyPhrase phrases (c :: cs) with
    | some rest => removeBoilerplateAux phrases n rest
    | none => c :: removeBoilerplateAux phrases n cs

/-- `text.replace(/Terms of Service|…|Verify you are human/gi, "")`. -/
def removeBoilerplate (cs : List Char) : List Char :=
  removeBoilerplateAux BOILERPLATE cs.length cs

/-- Characters the second replace keeps: printable ASCII `\x20`–`\x7E`
plus newline. -/
def printableOrNewline (c : Char) : Bool :=
  (0x20 ≤ c.toNat && c.toNat ≤ 0x7E) || c = '\n'

/-- `text.replace(/[^\x20-\x7E\n]/g, " ")`. -/
def asciiScrub (cs : List Char) : List Char :=
  cs.map (fun c => if printableOrNewline c then c else ' ')

/-- Whitespace stripped by JS `String.prototype.trim()` (the characters of
that class that can appear here; after `asciiScrub` only space and newline
remain anyway). -/
def jsWhitespace (c : Char) : Bool :=
  c = ' ' || c = '\n' || c = '\t' || c = '\r' ||
  c = Char.ofNat 11 || c = Char.ofNat 12 || c = Char.ofNat 0xA0 || c = Char.ofNat 0xFEFF

/-- `String.prototype.trim()`. -/
def jsTrimChars (cs : List Char) : List Char :=
  ((cs.dropWhile jsWhitespace).reverse.dropWhile jsWhitespace).reverse

/-- `sanitizeScrapedContent` (src/unnamed/part_004 lines 92–99).
`if (!text) return "";` then phrase removal, non-printable scrubbing,
trim, and truncation to 18000 characters. -/
def sanitizeScrapedContent (text : String) : String :=
  if text = "" then ""
  else ⟨(jsTrimChars (asciiScrub (removeBoilerplate text.toList))).take 18000⟩

/-- Case-insensitive occurrence check of one phrase anywhere in `cs`. -/
def hasPhrase (p : List Char) : List Char → Bool
  | [] => (matchPhraseAt p []).isSome
  | c :: cs => (matchPhraseAt p (c :: cs)).isSome || hasPhrase p cs

/-- Does `s` contain (case-insensitively) any phrase of the removal list? -/
def containsBoilerplate (s : String) : Bool :=
  BOILERPLATE.any (fun p => hasPhrase p.toList s.toList)

/-! ## Concurrency gate (src/unnamed/part_004 lines 44–57)

`waitForTurn()` polls `while (activeScrapes >= MAX_CONCURRENT_SCRAPES) await sleep(1000);`
and then runs `activeScrapes++` with no suspension point between the final
check and the increment; under Node's single-threaded cooperative scheduling
the check-and-increment is therefore atomic.  Release is the unconditional
`activeScrapes--` in `extractConversationData`, executed exactly by tasks
that completed `waitForTurn()`.  We model the population of extraction tasks
by phase counts (waiting → holding → done); a polling iteration that finds
the gate full changes no state and is elided as a stutter step.
-/

def MAX_CONCURRENT_SCRAPES : Nat := 1

structure GateState where
  waiting : Nat
  holding : Nat
  finished : Nat
  activeScrapes : Nat
deriving DecidableEq, Repr

/-- One cooperative scheduler step of the gate system with ceiling `C`:
either some waiting task observes `activeScrapes < C` and atomically
increments the counter (the successful exit of `waitForTurn`), or some
holding task runs its `activeScrapes--`. -/
inductive GateStep (C : Nat) : GateState → GateState → Prop
  | acquire (s : GateState) (hw : 0 < s.waiting) (hc : s.activeScrapes < C) :
      GateStep C s ⟨s.waiting - 1, s.holding + 1, s.finished, s.activeScrapes + 1⟩
  | release (s : GateState) (hh : 0 < s.holding) :
      GateStep C s ⟨s.waiting, s.holding - 1, s.finished + 1, s.activeScrapes - 1⟩

/-- Initial state: `N` extraction tasks queued, `activeScrapes = 0`. -/
def gateInit (N : Nat) : GateState :=
  ⟨N, 0, 0, 0⟩

/-- The gate invariant: the counter counts exactly the unreleased permits,
and never exceeds the ceiling. -/
def GateInv (C : Nat) (s : GateState) : Prop :=
  s.activeScrapes = s.holding ∧ s.activeScrapes ≤ C

/-! ## Content extractor (src/unnamed/part_004 lines 104–155)

After `waitForTurn()` the body runs under a `try`: open a page, navigate,
scroll, evaluate, then `page.close(); activeScrapes--; return sanitize(...)`.
The `catch` closes the page when one was opened (`if (page) await page.close()`),
decrements `activeScrapes`, and returns a `DATA_ERROR:` string.  Navigation and
evaluation are external effects, modelled by an oracle describing which of the
three exits the run takes.
-/

/-- Outcome of the browser work inside the `try` block: the harvested page
content, or an exception thrown before a page was assigned (`getBrowser` /
`newPage` failing), or an exception thrown after the page was opened. -/
inductive NavOutcome where
  | success (content : String)
  | failBeforePage (msg : String)
  | failAfterPage (msg : String)
deriving DecidableEq, Repr

/-- Observable trace of one complete `extractConversationData(url)` call:
its returned string, how many pages it opened and closed, and the value of
`activeScrapes` when it returns. -/
structure ExtractRun where
  result : String
  pagesOpened : Nat
  pagesClosed : Nat
  activeScrapes : Nat
deriving DecidableEq, Repr

/-- `extractConversationData` (src/unnamed/part_004 lines 104–155), started
when `waitForTurn()` admits the task with `activeScrapes` previously `active`. -/
def extractConversationData (env : NavOutcome) (active : Nat) : ExtractRun :=
  let a := active + 1
  match env with
  | NavOutcome.success content =>
      ⟨sanitizeScrapedContent content, 1, 1, a - 1⟩
  | NavOutcome.failBeforePage msg =>
      ⟨"DATA_ERROR: " ++ msg, 0, 0, a - 1⟩
  | NavOutcome.failAfterPage msg =>
      ⟨"DATA_ERROR: " ++ msg, 1, 1, a - 1⟩

/-! ## callLlamaSmart (src/unnamed/part_004 lines 164–221)

The fetch of one attempt is an oracle of the model name and the key index
`currentKeyIndex` used for the attempt.  A single attempt observably either
hits the rate-limit branch (`status === 429` or body error type
`rate_limit_reached`), returns an ok result, or raises an error message
(`!response.ok` raising `result.error?.message || "API Error: <status>"`, or
`fetch`/`json()` itself throwing).  The catch block rethrows exactly the
errors whose message contains `"fetch"` and otherwise rotates and counts. -/

inductive Outcome where
  | rateLimited
  | ok (content : String)
  | error (msg : String)
deriving DecidableEq, Repr

/-- `rotateKey` (src/unnamed/part_004 lines 165–168):
`currentKeyIndex = (currentKeyIndex + 1) % API_KEYS.length`. -/
def rotateKey (K cursor : Nat) : Nat :=
  (cursor + 1) % K

/-- The mutable dispatcher state: the shared rotation cursor plus the
instrumentation trace of request attempts `(model, key index)`. -/
structure DispatchState where
  currentKeyIndex : Nat
  attempts : List (String × Nat)
deriving DecidableEq, Repr

inductive SmartError where
  | allKeysExhausted (model : String)
  | thrown (msg : String)
deriving DecidableEq, Repr

/-- `tryModelWithRotation` (src/unnamed/part_004 lines 170–204).  The loop
`while (keysTriedForThisModel < API_KEYS.length)` is given by recursion on the
remaining iteration count `K - keysTriedForThisModel`; every iteration issues
one fetch attempt and then returns, rethrows, or rotates and counts. -/
def tryModelWithRotation (oracle : String → Nat → Outcome) (K : Nat) (model : String) :
    Nat → DispatchState → Except SmartError String × DispatchState
  | 0, s => (Except.error (SmartError.allKeysExhausted model), s)
  | n + 1, s =>
    let s1 : DispatchState := ⟨s.currentKeyIndex, s.attempts ++ [(model, s.currentKeyIndex)]⟩
    match oracle model s.currentKeyIndex with
    | Outcome.rateLimited =>
        tryModelWithRotation oracle K model n ⟨rotateKey K s1.currentKeyIndex, s1.attempts⟩
    | Outcome.ok content => (Except.ok content, s1)
    | Outcome.error msg =>
        if jsIncludes msg "fetch" then (Except.error (SmartError.thrown msg), s1)
        else tryModelWithRotation oracle K model n ⟨rotateKey K s1.currentKeyIndex, s1.attempts⟩

/-- The message of the final `throw new Error(...)` of `callLlamaSmart`
(src/unnamed/part_004 line 220). -/
def EXHAUSTION_MSG : String :=
  "CRITICAL: Every account and every fallback model has hit its limit. Pluto is offline until reset. fr."

/-- The model-tier loop of `callLlamaSmart` (src/unnamed/part_004
lines 206–220): every caught error — tier exhaustion or otherwise — falls
through to the next tier, and the final throw fires after the loop. -/
def callLlamaSmartGo (oracle : String → Nat → Outcome) (K : Nat) :
    List String → DispatchState → Except String String × DispatchState
  | [], s => (Except.error EXHAUSTION_MSG, s)
  | m :: rest, s =>
    match tryModelWithRotation oracle K m K s with
    | (Except.ok content, s') => (Except.ok content, s')
    | (Except.error _, s') => callLlamaSmartGo oracle K rest s'

/-- The model-tier list `MODELS` (src/unnamed/part_004 lines 38–42). -/
def MODELS : List String :=
  ["llama-3.3-70b-versatile", "llama3-70b-8192", "llama3-8b-8192"]

/-- `callLlamaSmart(messages)` (src/unnamed/part_004 lines 164–221), given the
credential pool, the tier list and the initial shared cursor.  The messages
and sampling parameters only feed the oracle and are elided. -/
def callLlamaSmart (oracle : String → Nat → Outcome) (keys : List String)
    (models : List String) (cursor : Nat) : Except String String × DispatchState :=
  callLlamaSmartGo oracle keys.length models ⟨cursor, []⟩

/-- JS `String.prototype.split(',')`: cut at every comma; the empty string
splits to `[""]`. -/
def splitCommaAux : List Char → List Char → List String
  | acc, [] => [⟨acc.reverse⟩]
  | acc, c :: cs =>
    if c = ',' then (⟨acc.reverse⟩ : String) :: splitCommaAux [] cs
    else splitCommaAux (c :: acc) cs

/-- `env.split(',')`. -/
def jsSplitComma (s : String) : List String :=
  splitCommaAux [] s.toList

/-- JS `String.prototype.trim()` on a string. -/
def jsTrim (s : String) : String :=
  ⟨jsTrimChars s.toList⟩

/-- `API_KEYS` parsing (src/unnamed/part_004 line 29):
`(env || "").split(',').map(k => k.trim()).filter(k => k)`. -/
def parseApiKeys (env : String) : List String :=
  ((jsSplitComma env).map jsTrim).filter (fun k => k ≠ "")

/-! ## callLlamaWithRetry (src/server.js lines 43–72)

One loop iteration fetches; a 429/503 response with retries left sleeps the
`defaultDelays[i]` backoff and continues; any other non-ok response throws
`result.error?.message || "API Error: <status>"` into the same `catch`, which
rethrows on the last iteration and otherwise sleeps the backoff and continues;
an ok response returns the parsed body.  A `fetch`/`json()` exception takes
the `catch` path directly.  The single credential `LLAMA_API_KEY` is fixed. -/

/-- Parsed response body, reduced to the only field the code reads
(`result.error?.message`). -/
structure RespBody where
  errorMessage : Option String
deriving DecidableEq, Repr

/-- Observable outcome of one fetch attempt: a response with an HTTP status
and parsed body, or a thrown exception. -/
inductive FetchOut where
  | resp (status : Nat) (body : RespBody)
  | thrown (msg : String)
deriving DecidableEq, Repr

/-- `defaultDelays` (src/server.js line 44). -/
def defaultDelays : List Nat :=
  [1000, 2000, 4000, 8000, 16000]

/-- Observable trace of a `callLlamaWithRetry` call: the outcome
(`Except.error` a thrown message, `Except.ok (some body)` a returned result,
`Except.ok none` the undefined fall-through when `retries = 0`), the backoff
sleeps performed in order, and the attempts as `(loop index, credential)`. -/
structure RetryRun where
  outcome : Except String (Option RespBody)
  sleeps : List Nat
  attempts : List (Nat × String)
deriving Repr

/-- The `for (let i = 0; i < retries; i++)` loop, by recursion on the number
of remaining iterations (`i = retries - remaining`). -/
def retryAux (oracle : Nat → FetchOut) (key : String) (retries : Nat) :
    Nat → RetryRun
  | 0 => ⟨Except.ok none, [], []⟩
  | remaining + 1 =>
    let i := retries - (remaining + 1)
    let att := (i, key)
    match oracle i with
    | FetchOut.resp status body =>
      if (status = 429 ∨ status = 503) ∧ 0 < remaining then
        let rest := retryAux oracle key retries remaining
        ⟨rest.outcome, defaultDelays.getD i 0 :: rest.sleeps, att :: rest.attempts⟩
      else if ¬ (200 ≤ status ∧ status ≤ 299) then
        let msg := body.errorMessage.getD ("API Error: " ++ toString status)
        if remaining = 0 then ⟨Except.error msg, [], [att]⟩
        else
          let rest := retryAux oracle key retries remaining
          ⟨rest.outcome, defaultDelays.getD i 0 :: rest.sleeps, att :: rest.attempts⟩
      else ⟨Except.ok (some body), [], [att]⟩
    | FetchOut.thrown msg =>
      if remaining = 0 then ⟨Except.error msg, [], [att]⟩
      else
        let rest := retryAux oracle key retries remaining
        ⟨rest.outcome, defaultDelays.getD i 0 :: rest.sleeps, att :: rest.attempts⟩

/-- `callLlamaWithRetry(messages, retries)` (src/server.js lines 43–72);
the default retry count is 5. -/
def callLlamaWithRetry (oracle : Nat → FetchOut) (key : String) (retries : Nat) : RetryRun :=
  retryAux oracle key retries retries

/-! ## Route handlers (src/unnamed/part_004 lines 226–308)

The routes catch every exception of their `try` block and answer
`res.status(500).json({ success:false, error: error.message })`; successes
answer `res.json({ success:true, <payload>: result.choices?.[0]?.message?.content })`.
An `undefined` payload value is dropped by `JSON.stringify`, so the envelope
then carries no payload field — modelled by `Option`. -/

/-- A JSON value as far as the routes inspect it (they only pass parsed
objects through). -/
structure JsonValue where
  raw : String
deriving DecidableEq, Repr

/-- The JSON response envelope: `{success: true, <payload>?}` or
`{success: false, error}`. -/
inductive Envelope (α : Type) where
  | success (payload : Option α)
  | failure (error : String)
deriving DecidableEq, Repr

/-- A completion result as far as the routes inspect it: the list of
`choices`, each reduced to its `message?.content` (absent fields collapse
to `none`). -/
structure LlamaResult where
  choices : List (Option String)
deriving DecidableEq, Repr

/-- The optional chain `result.choices?.[0]?.message?.content`. -/
def chainedContent (r : LlamaResult) : Option String :=
  match r.choices with
  | [] => none
  | c :: _ => c

/-- The brace slice of the `/api/debug` route (src/unnamed/part_004 line 249):
`content.substring(content.indexOf('{'), content.lastIndexOf('}') + 1)`.
When either brace is absent both indices are `-1` and `substring` clamps the
slice to the empty string. -/
def debugSlice (content : String) : String :=
  jsSubstring content (jsCharFirstIdx content '{') (jsCharLastIdx content '}' + 1)

/-- `/api/debug` (src/unnamed/part_004 lines 226–254).  `dispatchOutcome` is
the result of `callLlamaSmart` with the chained content already extracted;
`parse` is `JSON.parse`, whose failure is a thrown exception (`Except.error`).
When the chained content is `undefined`, `content.substring` itself throws a
`TypeError`; its V8 message is modelled verbatim. -/
def debugHandler (dispatchOutcome : Except String (Option String))
    (parse : String → Except String JsonValue) : Nat × Envelope JsonValue :=
  match dispatchOutcome with
  | Except.error msg => (500, Envelope.failure msg)
  | Except.ok none =>
      (500, Envelope.failure "Cannot read properties of undefined (reading 'substring')")
  | Except.ok (some content) =>
    match parse (debugSlice content) with
    | Except.error pmsg => (500, Envelope.failure pmsg)
    | Except.ok j => (200, Envelope.success (some j))

/-- Modelled from the spec: `extractJSON(text) → object | null` — slice from
the first `{` to the last `}` inclusive, attempt to parse, and return null
(`none`) on any parse failure rather than throwing.  No such function exists
in the repository sources; the `/api/debug` route inlines the slice-and-parse
without the null-on-failure guard, so this definition exists only to compare
the spec's contract with the code's behaviour. -/
def extractJSON (parse : String → Except String JsonValue) (text : String) : Option JsonValue :=
  (parse (debugSlice text)).toOption

/-- A stand-in for `JSON.parse` used only to instantiate closed statements.
Its single relevant trait is shared by every JSON parser: the empty string is
not valid JSON, and V8 reports it as "Unexpected end of JSON input". -/
def jsonParseModel : String → Except String JsonValue := fun s =>
  if s = "" then Except.error "Unexpected end of JSON input"
  else Except.ok ⟨s⟩

/-- `validData` of `/api/initialize` (src/unnamed/part_004 lines 262–267):
extract every link that has a url, drop the `DATA_ERROR` transcripts, join
with blank lines; `""` when no links were sent. -/
def validDataOf (extract : String → String) (links : Option (List (Option String))) : String :=
  match links with
  | none => ""
  | some ls =>
    if 0 < ls.length then
      String.intercalate "\n\n"
        (((ls.filterMap id).map extract).filter (fun t => ¬ t.startsWith "DATA_ERROR"))
    else ""

/-- `/api/initialize` (src/unnamed/part_004 lines 259–286).  `extract` is
`extractConversationData` (a total function returning text or a `DATA_ERROR`
string); `dispatch` is `callLlamaSmart` on the prompt assembled from the
valid data and the title (the prompt strings themselves are configuration
and are folded into the oracle). -/
def initializeHandler (extract : String → String)
    (dispatch : String → String → Except String LlamaResult)
    (links : Option (List (Option String))) (title : String) :
    Nat × Envelope String :=
  match dispatch (validDataOf extract links) title with
  | Except.ok r => (200, Envelope.success (chainedContent r))
  | Except.error msg => (500, Envelope.failure msg)

/-- A chat message (role and content). -/
structure ChatMsg where
  role : String
  content : String
deriving DecidableEq, Repr

/-- `/api/chat` (src/unnamed/part_004 lines 291–308): the system message is
built from `foundation`, the whole `history` is spread after it, and the
dispatch result is enveloped exactly like `/api/initialize`. -/
def chatHandler (dispatch : String → List ChatMsg → Except String LlamaResult)
    (foundation : String) (history : List ChatMsg) : Nat × Envelope String :=
  match dispatch foundation history with
  | Except.ok r => (200, Envelope.success (chainedContent r))
  | Except.error msg => (500, Envelope.failure msg)

/-- Well-formedness of a route response: HTTP 200 with a success envelope, or
HTTP 500 with a failure envelope carrying an error string. -/
def envelopeOk (resp : Nat × Envelope String) : Prop :=
  (resp.1 = 200 ∧ ∃ p, resp.2 = Envelope.success p) ∨
  (resp.1 = 500 ∧ ∃ m, resp.2 = Envelope.failure m)

/-! ## Theorems -/

/-- The gate invariant is preserved by every cooperative step. -/
theorem gateInv_preserved {C : Nat} {s t : GateState} (h : GateStep C s t)
    (hs : GateInv C s) : GateInv C t := by
  obtain ⟨h1, h2⟩ := hs
  cases h with
  | acquire hw hc =>
      refine ⟨?_, ?_⟩
      · show s.activeScrapes + 1 = s.holding + 1
        omega
      · show s.activeScrapes + 1 ≤ C
        omega
  | release hh =>
      refine ⟨?_, ?_⟩
      · show s.activeScrapes - 1 = s.holding - 1
        omega
      · show s.activeScrapes - 1 ≤ C
        omega

/-- Claim C3: for every interleaving of `waitForTurn` admissions and
`activeScrapes--` releases with ceiling `C`, starting from `N` queued
extraction tasks, the number of simultaneously-held (unreleased) permits —
and the `activeScrapes` counter — never exceeds `C` in any reachable state. -/
theorem gate_holding_le_ceiling (C N : Nat) (s : GateState)
    (h : Relation.ReflTransGen (GateStep C) (gateInit N) s) :
    s.holding ≤ C ∧ s.activeScrapes ≤ C := by
  have hinv : GateInv C s := by
    induction h with
    | refl => exact ⟨rfl, Nat.zero_le C⟩
    | tail _ hstep ih => exact gateInv_preserved hstep ih
  obtain ⟨h1, h2⟩ := hinv
  omega

/-- Witness for C3: with the code's ceiling `MAX_CONCURRENT_SCRAPES = 1` and
two tasks, the state after one admission holds one permit, within the bound. -/
theorem gate_holding_le_ceiling_witness :
    (⟨1, 1, 0, 1⟩ : GateState).holding ≤ MAX_CONCURRENT_SCRAPES ∧
    (⟨1, 1, 0, 1⟩ : GateState).activeScrapes ≤ MAX_CONCURRENT_SCRAPES :=
  gate_holding_le_ceiling MAX_CONCURRENT_SCRAPES 2 ⟨1, 1, 0, 1⟩
    (Relation.ReflTransGen.single (GateStep.acquire (gateInit 2) (by decide) (by decide)))

/-- Claim C4: every complete `extractConversationData` call balances its
permit: whichever of the three exit paths the run takes, `activeScrapes`
ends at the value it had before the call — the acquired permit is released
exactly once. -/
theorem extract_releases_permit_exactly_once (env : NavOutcome) (active : Nat) :
    (extractConversationData env active).activeScrapes = active := by
  cases env <;> simp [extractConversationData]

/-- Claim C5: `extractConversationData` is a total function into typed
results: each run returns either the sanitized source text or a
`DATA_ERROR:` string carrying the exception's message (never an unhandled
exception), has closed every page it opened, and has released its permit. -/
theorem extract_never_throws_typed_result (env : NavOutcome) (active : Nat) :
    (extractConversationData env active).pagesOpened =
      (extractConversationData env active).pagesClosed ∧
    (extractConversationData env active).activeScrapes = active ∧
    ((∃ content, env = NavOutcome.success content ∧
        (extractConversationData env active).result = sanitizeScrapedContent content) ∨
     (∃ msg, (env = NavOutcome.failBeforePage msg ∨ env = NavOutcome.failAfterPage msg) ∧
        (extractConversationData env active).result = "DATA_ERROR: " ++ msg)) := by
  cases env with
  | success content =>
      exact ⟨rfl, by simp [extractConversationData], Or.inl ⟨content, rfl, rfl⟩⟩
  | failBeforePage msg =>
      exact ⟨rfl, by simp [extractConversationData], Or.inr ⟨msg, Or.inl rfl, rfl⟩⟩
  | failAfterPage msg =>
      exact ⟨rfl, by simp [extractConversationData], Or.inr ⟨msg, Or.inr rfl, rfl⟩⟩

/-- Every character surviving `asciiScrub` is printable ASCII or newline. -/
theorem printableOrNewline_of_mem_asciiScrub {c : Char} {cs : List Char}
    (h : c ∈ asciiScrub cs) : printableOrNewline c = true := by
  unfold asciiScrub at h
  rcases List.mem_map.mp h with ⟨a, _, rfl⟩
  by_cases ha : printableOrNewline a = true
  · rwa [if_pos ha]
  · rw [if_neg ha]; decide

/-- Trimming only removes characters. -/
theorem mem_of_mem_jsTrimChars {c : Char} {cs : List Char}
    (h : c ∈ jsTrimChars cs) : c ∈ cs := by
  unfold jsTrimChars at h
  rw [List.mem_reverse] at h
  have h1 : c ∈ (cs.dropWhile jsWhitespace).reverse :=
    (List.dropWhile_sublist _).subset h
  rw [List.mem_reverse] at h1
  exact (List.dropWhile_sublist _).subset h1

/-- Claim C6 (amended): for every input, the sanitized output has length at
most 18000 and consists only of printable ASCII (0x20–0x7E) and newline
characters.  The third clause of the original claim — that the output
contains no boilerplate phrase — is refuted by
`sanitize_boilerplate_counterexample`. -/
theorem sanitize_length_and_charset (text : String) :
    (sanitizeScrapedContent text).length ≤ 18000 ∧
    ∀ c ∈ (sanitizeScrapedContent text).toList, printableOrNewline c = true := by
  unfold sanitizeScrapedContent
  by_cases h : text = ""
  · rw [if_pos h]
    exact ⟨by decide, by intro c hc; simp [String.toList] at hc⟩
  · rw [if_neg h]
    constructor
    · show (List.take 18000 (jsTrimChars (asciiScrub (removeBoilerplate text.toList)))).length ≤ 18000
      rw [List.length_take]
      exact min_le_left _ _
    · intro c hc
      have hc0 : c ∈ List.take 18000 (jsTrimChars (asciiScrub (removeBoilerplate text.toList))) := hc
      have hc1 : c ∈ jsTrimChars (asciiScrub (removeBoilerplate text.toList)) :=
        (List.take_sublist _ _).subset hc0
      exact printableOrNewline_of_mem_asciiScrub (mem_of_mem_jsTrimChars hc1)

/-- Counterexample for C6: the input `"Sign in"` (a non-breaking space
inside the phrase) is untouched by the phrase-removal pass, but the
non-printable scrub then rewrites the non-breaking space to a plain space,
so the sanitized output is exactly the boilerplate phrase `"Sign in"` —
the output is not boilerplate-free. -/
theorem sanitize_boilerplate_counterexample :
    sanitizeScrapedContent "Sign in" = "Sign in" ∧
    containsBoilerplate (sanitizeScrapedContent "Sign in") = true := by
  exact ⟨rfl, rfl⟩

/-- When every attempt rate-limits, the rotation loop for one tier burns its
whole fuel, records one attempt per iteration, and signals tier exhaustion. -/
theorem tryModelWithRotation_all_rate_limited (oracle : String → Nat → Outcome)
    (K : Nat) (model : String)
    (hrl : ∀ m k, oracle m k = Outcome.rateLimited) :
    ∀ (n : Nat) (s : DispatchState),
      (tryModelWithRotation oracle K model n s).1 =
        Except.error (SmartError.allKeysExhausted model) ∧
      (tryModelWithRotation oracle K model n s).2.attempts.length =
        s.attempts.length + n := by
  intro n
  induction n with
  | zero => intro s; exact ⟨rfl, rfl⟩
  | succ n ih =>
    intro s
    have h := hrl model s.currentKeyIndex
    simp only [tryModelWithRotation, h]
    obtain ⟨g1, g2⟩ :=
      ih ⟨rotateKey K s.currentKeyIndex, s.attempts ++ [(model, s.currentKeyIndex)]⟩
    refine ⟨g1, ?_⟩
    rw [g2]
    simp
    omega

/-- When every attempt rate-limits, the tier loop exhausts every tier in
turn — `K` attempts per tier — and ends at the final exhaustion throw. -/
theorem callLlamaSmartGo_all_rate_limited (oracle : String → Nat → Outcome)
    (K : Nat) (hrl : ∀ m k, oracle m k = Outcome.rateLimited) :
    ∀ (models : List String) (s : DispatchState),
      (callLlamaSmartGo oracle K models s).1 = Except.error EXHAUSTION_MSG ∧
      (callLlamaSmartGo oracle K models s).2.attempts.length =
        s.attempts.length + K * models.length := by
  intro models
  induction models with
  | nil => intro s; exact ⟨rfl, rfl⟩
  | cons m rest ih =>
    intro s
    have hpair := tryModelWithRotation_all_rate_limited oracle K m hrl K s
    rcases htr : tryModelWithRotation oracle K m K s with ⟨r, s'⟩
    rw [htr] at hpair
    obtain ⟨h1, h2⟩ := hpair
    simp only at h1 h2
    subst h1
    simp only [callLlamaSmartGo, htr]
    obtain ⟨g1, g2⟩ := ih s'
    refine ⟨g1, ?_⟩
    rw [g2, h2, List.length_cons, Nat.mul_succ]
    omega

/-- Claim C1: with a credential pool of `K ≥ 1` keys, if every request
attempt for every (tier, credential) pair signals a rate limit, then
`callLlamaSmart` makes exactly `K × M` request attempts over the `M` tiers —
no early fatal exit, no infinite loop — and then throws the exhaustion error,
whose message contains (case-insensitively; the code capitalizes "Every")
the phrase "every account and every fallback model has hit its limit". -/
theorem callLlamaSmart_all_rate_limited_exhausts (oracle : String → Nat → Outcome)
    (keys models : List String) (cursor : Nat)
    (_hK : 1 ≤ keys.length)
    (hrl : ∀ m k, oracle m k = Outcome.rateLimited) :
    (callLlamaSmart oracle keys models cursor).1 = Except.error EXHAUSTION_MSG ∧
    (callLlamaSmart oracle keys models cursor).2.attempts.length =
      keys.length * models.length ∧
    jsIncludes (asciiLower EXHAUSTION_MSG)
      "every account and every fallback model has hit its limit" = true := by
  obtain ⟨h1, h2⟩ :=
    callLlamaSmartGo_all_rate_limited oracle keys.length hrl models ⟨cursor, []⟩
  exact ⟨h1, by simpa using h2, by rfl⟩

/-- Witness for C1: two credentials, the code's three tiers, an
always-rate-limited endpoint — six attempts, then the exhaustion error. -/
theorem callLlamaSmart_all_rate_limited_exhausts_witness :
    (callLlamaSmart (fun _ _ => Outcome.rateLimited) ["acc1", "acc2"] MODELS 0).1 =
      Except.error EXHAUSTION_MSG ∧
    (callLlamaSmart (fun _ _ => Outcome.rateLimited) ["acc1", "acc2"] MODELS 0).2.attempts.length =
      ["acc1", "acc2"].length * MODELS.length ∧
    jsIncludes (asciiLower EXHAUSTION_MSG)
      "every account and every fallback model has hit its limit" = true :=
  callLlamaSmart_all_rate_limited_exhausts (fun _ _ => Outcome.rateLimited)
    ["acc1", "acc2"] MODELS 0 (by decide) (fun _ _ => rfl)

/-- Claim C7: starting with the rotation cursor at the first credential, if
the first credential rate-limits and the second succeeds (on the first
tier), `callLlamaSmart` returns the second credential's successful result,
having made exactly the two attempts, and the shared cursor has advanced
exactly once (from 0 to 1). -/
theorem callLlamaSmart_second_key_succeeds (oracle : String → Nat → Outcome)
    (keys : List String) (m : String) (rest : List String) (content : String)
    (hK : 2 ≤ keys.length)
    (h0 : oracle m 0 = Outcome.rateLimited)
    (h1 : oracle m 1 = Outcome.ok content) :
    callLlamaSmart oracle keys (m :: rest) 0 =
      (Except.ok content, ⟨1, [(m, 0), (m, 1)]⟩) := by
  obtain ⟨n, hn⟩ : ∃ n, keys.length = n + 2 := ⟨keys.length - 2, by omega⟩
  have hmod : (0 + 1) % (n + 2) = 1 := Nat.mod_eq_of_lt (by omega)
  unfold callLlamaSmart
  rw [hn]
  simp only [callLlamaSmartGo, tryModelWithRotation, rotateKey, h0, hmod, h1]
  rfl

/-- Witness for C7: a two-credential pool where key 0 always rate-limits
and key 1 succeeds with "hi". -/
theorem callLlamaSmart_second_key_succeeds_witness :
    callLlamaSmart (fun _ k => if k = 0 then Outcome.rateLimited else Outcome.ok "hi")
      ["acc1", "acc2"] ("llama-3.3-70b-versatile" :: []) 0 =
      (Except.ok "hi", ⟨1, [("llama-3.3-70b-versatile", 0), ("llama-3.3-70b-versatile", 1)]⟩) :=
  callLlamaSmart_second_key_succeeds _ ["acc1", "acc2"] _ [] "hi" (by decide) rfl rfl

/-- With an empty credential pool the rotation loop of every tier is
vacuously exhausted: no attempt is made and the state is unchanged. -/
theorem callLlamaSmartGo_no_keys (oracle : String → Nat → Outcome) :
    ∀ (models : List String) (s : DispatchState),
      callLlamaSmartGo oracle 0 models s = (Except.error EXHAUSTION_MSG, s) := by
  intro models
  induction models with
  | nil => intro s; rfl
  | cons m rest ih =>
    intro s
    simp only [callLlamaSmartGo, tryModelWithRotation]
    exact ih s

/-- Claim C10: when the configured key string parses to zero credentials,
`callLlamaSmart` performs zero request attempts — regardless of what the
endpoint would answer — and throws the final all-tiers exhaustion error. -/
theorem callLlamaSmart_empty_pool_zero_attempts (oracle : String → Nat → Outcome)
    (envKeys : String) (models : List String) (cursor : Nat)
    (hempty : parseApiKeys envKeys = []) :
    (callLlamaSmart oracle (parseApiKeys envKeys) models cursor).1 =
      Except.error EXHAUSTION_MSG ∧
    (callLlamaSmart oracle (parseApiKeys envKeys) models cursor).2.attempts = [] := by
  rw [hempty]
  unfold callLlamaSmart
  rw [show (([] : List String)).length = 0 from rfl,
      callLlamaSmartGo_no_keys oracle models ⟨cursor, []⟩]
  exact ⟨rfl, rfl⟩

/-- Witness for C10: the unset environment variable parses to an empty pool
(`"".split(',').map(trim).filter(truthy) = []`); even an always-succeeding
endpoint is never called and the exhaustion error fires. -/
theorem callLlamaSmart_empty_pool_zero_attempts_witness :
    (callLlamaSmart (fun _ _ => Outcome.ok "ready") (parseApiKeys "") MODELS 0).1 =
      Except.error EXHAUSTION_MSG ∧
    (callLlamaSmart (fun _ _ => Outcome.ok "ready") (parseApiKeys "") MODELS 0).2.attempts = [] :=
  callLlamaSmart_empty_pool_zero_attempts (fun _ _ => Outcome.ok "ready") "" MODELS 0 rfl

/-- Claim C9: in the backoff variant `callLlamaWithRetry`, an endpoint that
answers HTTP 429 (or 503) on every attempt is retried against the same
single credential with the configured backoff schedule
`defaultDelays = [1s, 2s, 4s, 8s, 16s]`: the call makes exactly the bounded
5 attempts, sleeping the first four configured delays between them (the
fifth attempt is terminal, so the 16s slot is never reached), and then
gives up by raising the endpoint's error. -/
theorem callLlamaWithRetry_backoff_schedule (key : String) (body : RespBody)
    (status : Nat) (hs : status = 429 ∨ status = 503) :
    callLlamaWithRetry (fun _ => FetchOut.resp status body) key 5 =
      ⟨Except.error (body.errorMessage.getD ("API Error: " ++ toString status)),
       [1000, 2000, 4000, 8000],
       [(0, key), (1, key), (2, key), (3, key), (4, key)]⟩ ∧
    [1000, 2000, 4000, 8000] = defaultDelays.take 4 ∧
    defaultDelays = [1000, 2000, 4000, 8000, 16000] := by
  rcases hs with h | h <;> subst h <;> exact ⟨rfl, rfl, rfl⟩

/-- Witness for C9: the 429 case with an empty error body. -/
theorem callLlamaWithRetry_backoff_schedule_witness :
    callLlamaWithRetry (fun _ => FetchOut.resp 429 ⟨none⟩) "key1" 5 =
      ⟨Except.error (Option.getD none ("API Error: " ++ toString 429)),
       [1000, 2000, 4000, 8000],
       [(0, "key1"), (1, "key1"), (2, "key1"), (3, "key1"), (4, "key1")]⟩ ∧
    [1000, 2000, 4000, 8000] = defaultDelays.take 4 ∧
    defaultDelays = [1000, 2000, 4000, 8000, 16000] :=
  callLlamaWithRetry_backoff_schedule "key1" ⟨none⟩ 429 (Or.inl rfl)

/-- Counterexample for C2: on model output with no braces the slice is the
empty string, every JSON parser fails on it, and the `/api/debug` route
surfaces that failure through its generic catch as
`500 {success:false, error:<parser message>}` — byte-identical to the
envelope a dispatch failure with the same message would get, with no
"malformed response" marker; the inline slice-and-parse propagates the
thrown error (`Except.error`) instead of returning null, while the
spec-modelled `extractJSON` returns `none`. -/
theorem debug_parse_failure_counterexample :
    debugSlice "no braces here" = "" ∧
    debugHandler (Except.ok (some "no braces here")) jsonParseModel =
      (500, Envelope.failure "Unexpected end of JSON input") ∧
    jsIncludes "Unexpected end of JSON input" "malformed response" = false ∧
    debugHandler (Except.error "Unexpected end of JSON input") jsonParseModel =
      (500, Envelope.failure "Unexpected end of JSON input") ∧
    extractJSON jsonParseModel "no braces here" = none := by
  exact ⟨rfl, rfl, rfl, rfl, rfl⟩

/-- Claim C2 (amended): the `/api/debug` route slices the model output from
its first `{` to its last `}` inclusive (the substring clamps to the empty
string when both braces are absent; with only one brace absent the clamped
slice is generally non-empty and may itself parse) and feeds it to
`JSON.parse`; a parse failure throws and is caught by the route's generic
handler, which answers HTTP 500 `{success:false, error:<parser message>}` —
exactly the envelope a dispatch failure with that message produces, with no
distinct "malformed response" marker; no null-returning `extractJSON` guard
exists in the code (the spec-modelled `extractJSON` would return `none`
where the code's path throws). -/
theorem debug_parse_failure_surfaced_as_generic_error
    (content pmsg : String) (parse : String → Except String JsonValue)
    (hp : parse (debugSlice content) = Except.error pmsg) :
    debugHandler (Except.ok (some content)) parse = (500, Envelope.failure pmsg) ∧
    debugHandler (Except.error pmsg) parse = (500, Envelope.failure pmsg) ∧
    extractJSON parse content = none := by
  refine ⟨?_, rfl, ?_⟩
  · simp only [debugHandler, hp]
  · simp only [extractJSON, hp, Except.toOption]

/-- Witness for C2 (amended): a brace-free model output under the concrete
parse model. -/
theorem debug_parse_failure_surfaced_as_generic_error_witness :
    debugHandler (Except.ok (some "no json at all")) jsonParseModel =
      (500, Envelope.failure "Unexpected end of JSON input") ∧
    debugHandler (Except.error "Unexpected end of JSON input") jsonParseModel =
      (500, Envelope.failure "Unexpected end of JSON input") ∧
    extractJSON jsonParseModel "no json at all" = none :=
  debug_parse_failure_surfaced_as_generic_error "no json at all"
    "Unexpected end of JSON input" jsonParseModel rfl

/-- Counterexample for C8: a dispatch success whose parsed body has no
`choices` makes `result.choices?.[0]?.message?.content` undefined, so
`/api/initialize` answers `{success:true}` with the `foundation` field
dropped (`none`): the success envelope carries no defined string payload. -/
theorem initialize_success_payload_undefined_counterexample :
    initializeHandler (fun u => u) (fun _ _ => Except.ok ⟨[]⟩) none "t" =
      (200, Envelope.success none) := by
  rfl

/-- Claim C8 (amended): for every request to `/api/initialize` and
`/api/chat` and every dispatch outcome (success, extraction failure folded
into the prompt data, dispatch exhaustion, or a thrown exception), the
response is a well-formed envelope — HTTP 200 with a success envelope or
HTTP 500 with a failure envelope carrying a string error.  On success the
payload field equals `result.choices?.[0]?.message?.content`: it is a
defined string whenever the upstream body provides one, and is dropped
(absent) when the optional chain is undefined. -/
theorem routes_envelope_shape
    (extract : String → String)
    (idispatch : String → String → Except String LlamaResult)
    (cdispatch : String → List ChatMsg → Except String LlamaResult)
    (links : Option (List (Option String))) (title foundation : String)
    (history : List ChatMsg) :
    envelopeOk (initializeHandler extract idispatch links title) ∧
    envelopeOk (chatHandler cdispatch foundation history) ∧
    (∀ r, idispatch (validDataOf extract links) title = Except.ok r →
      initializeHandler extract idispatch links title =
        (200, Envelope.success (chainedContent r))) ∧
    (∀ m, idispatch (validDataOf extract links) title = Except.error m →
      initializeHandler extract idispatch links title = (500, Envelope.failure m)) ∧
    (∀ r, cdispatch foundation history = Except.ok r →
      chatHandler cdispatch foundation history =
        (200, Envelope.success (chainedContent r))) ∧
    (∀ m, cdispatch foundation history = Except.error m →
      chatHandler cdispatch foundation history = (500, Envelope.failure m)) := by
  refine ⟨?_, ?_, ?_, ?_, ?_, ?_⟩
  · unfold initializeHandler envelopeOk
    cases idispatch (validDataOf extract links) title with
    | ok r => exact Or.inl ⟨rfl, _, rfl⟩
    | error m => exact Or.inr ⟨rfl, m, rfl⟩
  · unfold chatHandler envelopeOk
    cases cdispatch foundation history with
    | ok r => exact Or.inl ⟨rfl, _, rfl⟩
    | error m => exact Or.inr ⟨rfl, m, rfl⟩
  · intro r h; simp only [initializeHandler, h]
  · intro m h; simp only [initializeHandler, h]
  · intro r h; simp only [chatHandler, h]
  · intro m h; simp only [chatHandler, h]

/-- Witness for C8 (amended): a success with a defined payload on
`/api/initialize` and a thrown dispatch error on `/api/chat`. -/
theorem routes_envelope_shape_witness :
    initializeHandler (fun u => u) (fun _ _ => Except.ok ⟨[some "hello"]⟩) none "t" =
      (200, Envelope.success (some "hello")) ∧
    chatHandler (fun _ _ => Except.error "boom") "f" [] = (500, Envelope.failure "boom") :=
  ⟨(routes_envelope_shape (fun u => u) (fun _ _ => Except.ok ⟨[some "hello"]⟩)
      (fun _ _ => Except.error "boom") none "t" "f" []).2.2.1 ⟨[some "hello"]⟩ rfl,
   (routes_envelope_shape (fun u => u) (fun _ _ => Except.ok ⟨[some "hello"]⟩)
      (fun _ _ => Except.error "boom") none "t" "f" []).2.2.2.2.2 "boom" rfl⟩
